import Mathlib

/-!
Shallow embedding of the PlantTimer schedule engine (src/PlantTimer.ino and the
near-duplicate variants under src/unnamed/), together with proofs about the
claims of the specification.

Conventions used throughout:
* Unix timestamps, accumulator sums and seconds counts are `Nat`; the Arduino
  stores them in 32-bit `unsigned long` / `time_t`, so every arithmetic step on
  those variables is reduced modulo 2^32 (`u32`), and unsigned subtraction is
  `u32sub`.
* `int` (16-bit on AVR) and `long` (32-bit) conversions that the code performs
  are modelled by `toInt32` / `toInt16`.
* The `while` loops of `getGrowthLightPeriod` and `getBloomLightStatus` are
  modelled with an explicit fuel parameter: `none` means the fuel ran out
  before the loop exited, `some r` means the loop exited with result `r`.
  Fuel-monotonicity lemmas (`growthLoop_mono`, `bloomLoop_mono`) show that a
  `some` result is independent of the fuel chosen.
* `bloomLightStatus : Bool` is the *period index* of the bloom scheme, exactly
  as in the source: `false` = period 0 (the ON period is running), `true` =
  period 1 (the OFF period is running).
-/

/-- Reduction modulo 2^32: the arithmetic of the Arduino's `unsigned long`. -/
def u32 (n : Nat) : Nat := n % 4294967296

/-- Unsigned 32-bit subtraction `a - b` (wraps around like C `unsigned long`). -/
def u32sub (a b : Nat) : Nat := u32 (a + (4294967296 - u32 b))

/-- Reinterpretation of a 32-bit unsigned value as a signed C `long`. -/
def toInt32 (n : Nat) : Int :=
  if u32 n < 2147483648 then (u32 n : Int) else (u32 n : Int) - 4294967296

/-- Conversion of a C `long` value to a 16-bit AVR `int` (modular wrap). -/
def toInt16 (i : Int) : Int := (i + 32768) % 65536 - 32768

/-- Conversion of a signed C `long` value to `unsigned long` (mod 2^32). -/
def toUInt32 (i : Int) : Nat := (i % 4294967296).toNat

/-- C truncating division (rounds toward zero) by the positive constant
`SECS_PER_DAY = 86400`, as performed by the Time library's `elapsedDays`
macro on a signed `long`. -/
def cTruncDiv86400 (a : Int) : Int :=
  if 0 ≤ a then (a.toNat / 86400 : Nat) else -((((-a).toNat) / 86400 : Nat) : Int)

/-! ## Growth light scheduler (`getGrowthLightPeriod`)

The main file src/PlantTimer.ino (lines 303-329) walks forward from one day
before today's `growthLightStartTimeHour:growthLightStartTimeMinute`, adding
`growthLightScheme[count] * SECS_PER_MIN` until the accumulator passes `now()`,
advancing `count` with the wraparound bound `count < GROWTH_LIGHT_PERIODS-1`.
Array reads are modelled as checked reads: an index outside the array is
reported as `GrowthOutcome.oobRead` (undefined behaviour in C). -/

/-- Result of a growth-light walk: either the loop exited normally
(`done sum count` before post-processing, `done secondsToNext count` after),
or it attempted an out-of-bounds read of `growthLightScheme`. -/
inductive GrowthOutcome where
  | done (stn : Nat) (count : Nat)
  | oobRead (index : Nat)
  deriving DecidableEq

/-- The `while` loop of `getGrowthLightPeriod` in src/PlantTimer.ino:319-326.
The dead inner store to `currentGrowthLightPeriod` (overwritten at line 328)
is omitted; `count` carries the whole state. -/
def growthLoop (scheme : List Nat) (timeNow : Nat) : Nat → Nat → Nat → Option GrowthOutcome
  | 0, _, _ => none
  | fuel + 1, sum, count =>
    if sum ≤ timeNow then
      match scheme.get? count with
      | none => some (GrowthOutcome.oobRead count)
      | some entry =>
        let sum1 := u32 (sum + entry * 60)
        if sum1 ≤ timeNow then
          growthLoop scheme timeNow fuel sum1
            (if count < scheme.length - 1 then count + 1 else 0)
        else
          growthLoop scheme timeNow fuel sum1 count
    else
      some (GrowthOutcome.done sum count)

/-- The anchor instant `makeTime(breakTime(now) with H:M:S set) - SECS_PER_DAY`
of src/PlantTimer.ino:306-315: today's configured daily start time minus one
day.  `breakTime`/`makeTime` of the Time library work on civil days of the
Unix epoch, so replacing hour, minute and second of `timeNow` yields
`timeNow / 86400 * 86400 + hour * 3600 + minute * 60`. -/
def growthAnchor (startHour startMinute timeNow : Nat) : Nat :=
  u32sub (timeNow / 86400 * 86400 + startHour * 3600 + startMinute * 60) 86400

/-- `getGrowthLightPeriod` of src/PlantTimer.ino:303-329, as a function of the
configuration and the query time: the final `(secondsToNextGrowthLightSwitch,
currentGrowthLightPeriod)` pair.  The first component is the exact unsigned
difference `sumOfGrowthLightPeriods - timeNow` (the loop exits with
`sum > timeNow`, and `sum < 2^32`, so the `Nat` subtraction is the `unsigned
long` one); the source then stores it into the *signed* 32-bit `long`
`secondsToNextGrowthLightSwitch`, i.e. the stored value is its `toInt32`
reinterpretation — negative whenever the difference is at least 2^31 (which
happens when the anchor wraps, e.g. for query times inside the first epoch
day). -/
def getGrowthLightPeriod (scheme : List Nat) (startHour startMinute timeNow fuel : Nat) :
    Option GrowthOutcome :=
  match growthLoop scheme timeNow fuel (growthAnchor startHour startMinute timeNow) 0 with
  | some (GrowthOutcome.done sum count) => some (GrowthOutcome.done (sum - timeNow) count)
  | r => r

/-- The runtime state written by `getGrowthLightPeriod` (globals
`currentGrowthLightPeriod` and `secondsToNextGrowthLightSwitch`). -/
structure GrowthState where
  currentGrowthLightPeriod : Nat
  secondsToNextGrowthLightSwitch : Nat
  deriving DecidableEq

/-- Effect of one call to `getGrowthLightPeriod` on the runtime state.  The
source loop starts from the local `count = 0` and overwrites both globals, so
the input state is only kept when the computation does not complete. -/
def growthUpdate (scheme : List Nat) (startHour startMinute timeNow fuel : Nat)
    (s : GrowthState) : GrowthState :=
  match getGrowthLightPeriod scheme startHour startMinute timeNow fuel with
  | some (GrowthOutcome.done stn p) => ⟨p, stn⟩
  | _ => s

/-- The `while` loop of the `getGrowthLightPeriod` variants in
src/unnamed/part_002:338-345 and src/unnamed/part_003:307-314 and 831-838,
which advance `count` with the bound `count < GROWTH_LIGHT_PERIODS` (the full
array length) instead of `GROWTH_LIGHT_PERIODS-1`. -/
def growthLoopVariant (scheme : List Nat) (timeNow : Nat) : Nat → Nat → Nat → Option GrowthOutcome
  | 0, _, _ => none
  | fuel + 1, sum, count =>
    if sum ≤ timeNow then
      match scheme.get? count with
      | none => some (GrowthOutcome.oobRead count)
      | some entry =>
        let sum1 := u32 (sum + entry * 60)
        if sum1 ≤ timeNow then
          growthLoopVariant scheme timeNow fuel sum1
            (if count < scheme.length then count + 1 else 0)
        else
          growthLoopVariant scheme timeNow fuel sum1 count
    else
      some (GrowthOutcome.done sum count)

/-- The variant `getGrowthLightPeriod` (src/unnamed/part_002:325-348,
src/unnamed/part_003:296-319 and 816-841). -/
def getGrowthLightPeriodVariant (scheme : List Nat) (startHour startMinute timeNow fuel : Nat) :
    Option GrowthOutcome :=
  match growthLoopVariant scheme timeNow fuel (growthAnchor startHour startMinute timeNow) 0 with
  | some (GrowthOutcome.done sum count) => some (GrowthOutcome.done (sum - timeNow) count)
  | r => r

/-- The growth light scheme of every source variant:
`int growthLightScheme[GROWTH_LIGHT_PERIODS] = { 720, 330, 60, 330 }` (minutes). -/
def growthLightScheme : List Nat := [720, 330, 60, 330]

/-! ## Bloom light scheduler (`getBloomLightStatus`)

src/PlantTimer.ino:334-358 walks forward from `storedSettings.bloomStart`,
alternately adding the ON then OFF period of `bloomLightScheme`.  At each fold
below `now()` it toggles `bloomLightStatus`; at an ON→OFF fold it subtracts the
day-length reduction, at an OFF→ON fold it adds the night prolongation and
increments `bloomDayCounter` (a byte, hence modulo 256), both only once
`bloomDayCounter >= startOfDaytimeReduction`. -/

/-- The configuration globals read by `getBloomLightStatus`
(src/PlantTimer.ino:96-104): `bloomLightScheme[2]` in minutes, the two drift
increments in minutes, and the bloom day at which drift starts. -/
structure BloomConfig where
  onMinutes : Nat
  offMinutes : Nat
  reductionOfDaytimeInMinutes : Nat
  prolongNighttimeInMinutes : Nat
  startOfDaytimeReduction : Nat
  deriving DecidableEq

/-- `bloomLightScheme[bloomLightStatus]`: period index `false` (0) is the ON
duration, index `true` (1) the OFF duration. -/
def bloomSchemeAt (cfg : BloomConfig) (status : Bool) : Nat :=
  if status then cfg.offMinutes else cfg.onMinutes

/-- One iteration of the `while` body of `getBloomLightStatus`
(src/PlantTimer.ino:339-354), given that the loop condition already held:
add the current period; if the new accumulator is still at or below `now()`,
toggle the status, apply the drift adjustment, and on an OFF→ON fold
increment the (byte) day counter.  Returns the new
`(sumOfBloomLightPeriods, bloomLightStatus, bloomDayCounter)`. -/
def bloomIterate (cfg : BloomConfig) (timeNow sum : Nat) (status : Bool) (counter : Nat) :
    Nat × Bool × Nat :=
  let sum1 := u32 (sum + bloomSchemeAt cfg status * 60)
  if sum1 ≤ timeNow then
    if status = false then
      (if cfg.startOfDaytimeReduction ≤ counter then
          u32sub sum1 (cfg.reductionOfDaytimeInMinutes * 60)
        else sum1,
       true, counter)
    else
      (if cfg.startOfDaytimeReduction ≤ counter then
          u32 (sum1 + cfg.prolongNighttimeInMinutes * 60)
        else sum1,
       false, (counter + 1) % 256)
  else
    (sum1, status, counter)

/-- The `while` loop of `getBloomLightStatus` (src/PlantTimer.ino:338-355). -/
def bloomLoop (cfg : BloomConfig) (timeNow : Nat) : Nat → Nat → Bool → Nat → Option (Nat × Bool × Nat)
  | 0, _, _, _ => none
  | fuel + 1, sum, status, counter =>
    if sum ≤ timeNow then
      bloomLoop cfg timeNow fuel (bloomIterate cfg timeNow sum status counter).1
        (bloomIterate cfg timeNow sum status counter).2.1
        (bloomIterate cfg timeNow sum status counter).2.2
    else
      some (sum, status, counter)

/-- `getBloomLightStatus` of src/PlantTimer.ino:334-358: starting the walk at
`storedSettings.bloomStart` with the current globals `bloomLightStatus` and
`bloomDayCounter` (the source does *not* reset them), it returns the new
`(secondsToNextBloomLightSwitch, bloomLightStatus, bloomDayCounter)`.  As with
the growth scheduler, the first component is the exact unsigned difference
`sumOfBloomLightPeriods - timeNow`; the source stores its `toInt32`
reinterpretation into the signed 32-bit `long` global, which is negative
whenever the difference is at least 2^31 (e.g. when `bloomStart` exceeds
`timeNow` by at least 2^31, so the loop exits immediately). -/
def getBloomLightStatus (cfg : BloomConfig) (bloomStart timeNow fuel : Nat)
    (status : Bool) (counter : Nat) : Option (Nat × Bool × Nat) :=
  match bloomLoop cfg timeNow fuel (u32 bloomStart) status counter with
  | some (sum, st, c) => some (sum - timeNow, st, c)
  | none => none

/-- The runtime state read and written by `getBloomLightStatus` (globals
`bloomLightStatus`, `bloomDayCounter`, `secondsToNextBloomLightSwitch`). -/
structure BloomState where
  bloomLightStatus : Bool
  bloomDayCounter : Nat
  secondsToNextBloomLightSwitch : Nat
  deriving DecidableEq

/-- Effect of one call to `getBloomLightStatus` on the runtime state: the walk
starts from the *current* `bloomLightStatus` and `bloomDayCounter`. -/
def bloomUpdate (cfg : BloomConfig) (bloomStart timeNow fuel : Nat) (s : BloomState) : BloomState :=
  match getBloomLightStatus cfg bloomStart timeNow fuel s.bloomLightStatus s.bloomDayCounter with
  | some (stn, st, c) => ⟨st, c, stn⟩
  | none => s

/-- The bloom configuration of src/PlantTimer.ino: `bloomLightScheme =
{ 780, 690 }`, `reductionOfDaytimeInMinutes = 3`,
`prolongNighttimeInMinutes = 0`, `startOfDaytimeReduction = 10`. -/
def mainBloomConfig : BloomConfig := ⟨780, 690, 3, 0, 10⟩

/-! ## Far-red / sleep light (`getSleepLightStatus`)

src/PlantTimer.ino:360-383 derives the far-red window from the globals left by
the last `getBloomLightStatus` call.  `sleepLightScheme = { 10, 15 }` holds the
minutes before and after the bloom OFF edge. -/

/-- `getSleepLightStatus` of src/PlantTimer.ino:360-383: from the sleep scheme
`(sleepPre, sleepPost)` (minutes), the bloom config, and the globals
`bloomLightStatus` and `secondsToNextBloomLightSwitch` (a `long`), it returns
the boolean result and the `secondsToNextSleepLightSwitch` it stores.  The
arithmetic is unsigned throughout: the Time library defines `SECS_PER_MIN` as
`60UL`, so `scheme * SECS_PER_MIN` is `unsigned long`, every subtraction and
comparison converts the `long` operand to `unsigned long`, and the Arduino
`abs` macro `((x)>0?(x):-(x))` is the identity on an unsigned value (so
`secondsSinceLastBloomLightSwitch`, itself a `time_t`, is the wrapped
difference, huge when `stn < period`).  The final values are stored back into
the signed `long` `secondsToNextSleepLightSwitch`, hence `toInt32`. -/
def getSleepLightStatus (sleepPre sleepPost : Nat) (cfg : BloomConfig)
    (bloomLightStatus : Bool) (secondsToNextBloomLightSwitch : Int) : Bool × Int :=
  let stnU : Nat := toUInt32 secondsToNextBloomLightSwitch
  let secondsSinceLastBloomLightSwitch : Nat :=
    u32sub stnU (bloomSchemeAt cfg bloomLightStatus * 60)
  if sleepPre * 60 < stnU then
    (true, toInt32 (stnU + sleepPost * 60))
  else if sleepPost * 60 < secondsSinceLastBloomLightSwitch then
    (true, toInt32 (secondsSinceLastBloomLightSwitch + sleepPost * 60))
  else
    (false, toInt32 (u32sub stnU (sleepPre * 60)))

/-- Far-red policy exactly as the specification states it (spec §4.3), written
only for comparison with `getSleepLightStatus`: far-red is ON iff the bloom
light's next transition is an OFF edge (bloom currently ON) at most
`preMinutes` away, or the most recent transition was the OFF edge (bloom
currently OFF) at most `postMinutes` ago. -/
def sleepLightSpecOn (sleepPre sleepPost : Nat) (bloomOn : Bool)
    (secondsToNext secondsSinceLast : Nat) : Bool :=
  (bloomOn && decide (secondsToNext ≤ sleepPre * 60)) ||
  (!bloomOn && decide (secondsSinceLast ≤ sleepPost * 60))

/-! ## Exhaust fan thermostat (the hysteresis block of `loop`)

src/PlantTimer.ino:286-297 polls the air sensor each pass:
`if (temp <= minRoomTemp && !fanThrottleActive) { throttle on }
else if (temp > minRoomTemp + exhaustFanHysteresis && fanThrottleActive)
{ throttle off }`.  `minRoomTemp = 23`, `exhaustFanHysteresis = 2`. -/

/-- The value `DallasTemperature::getTempC` returns when the sensor read
fails (device disconnected): `DEVICE_DISCONNECTED_C = -127`.  The sentinel is
integral, so readings are modelled as integers. -/
def DEVICE_DISCONNECTED_C : Int := -127

/-- One pass of the exhaust-fan hysteresis block of `loop`
(src/PlantTimer.ino:286-297): new value of `fanThrottleActive` from the sensor
reading and the previous state. -/
def fanThrottleStep (minRoomTemp exhaustFanHysteresis reading : Int)
    (fanThrottleActive : Bool) : Bool :=
  if reading ≤ minRoomTemp ∧ fanThrottleActive = false then
    true
  else if minRoomTemp + exhaustFanHysteresis < reading ∧ fanThrottleActive = true then
    false
  else
    fanThrottleActive

/-! ## Boot-time bloom activation (`setup`)

src/PlantTimer.ino:215-240: the bloom scheduler is set up iff
`storedSettings.bloomStart > 0 && (timeNow - storedSettings.bloomStart) > 0`
(unsigned `time_t` arithmetic).  No `MAX_BLOOM_DAYS` test appears anywhere in
`setup`, and `setup` never assigns `storedSettings.bloomStart`. -/

/-- The condition of src/PlantTimer.ino:215 under which `setup` runs
`getBloomLightStatus` and arms the bloom and sleep timers. -/
def setupActivatesBloom (bloomStart timeNow : Nat) : Bool :=
  decide (0 < u32 bloomStart) && decide (0 < u32sub timeNow bloomStart)

/-- The persisted `storedSettings.bloomStart` after `setup` runs: `setup` only
reads it (`EEPROM.get`, line 184) and never writes it, so it is unchanged. -/
def setupBloomStartAfter (bloomStart timeNow : Nat) : Nat := bloomStart

/-! ## Serial command `B<timestamp>;` (`setBloomStart`)

src/PlantTimer.ino:521-554: computes `elapsedBloomDays` from the signed
difference `now() - timeInput`, then
* `timeInput >= MIN_TIME`: store `timeInput` if `elapsedBloomDays <
  MAX_BLOOM_DAYS`, else store 0;
* `timeInput == 0`: store 0;
* otherwise (non-zero below `MIN_TIME`): fall through, persisted value
  unchanged (the final `else if (!timeInput)` branch is dead code). -/

/-- `#define MIN_TIME 1451606400UL` (Jan 1 2016), src/PlantTimer.ino:525. -/
def MIN_TIME : Nat := 1451606400

/-- `#define MAX_BLOOM_DAYS 120`, src/PlantTimer.ino:110. -/
def MAX_BLOOM_DAYS : Int := 120

/-- `int elapsedBloomDays = elapsedDays(now() - timeInput)` of
src/PlantTimer.ino:523-524: unsigned 32-bit subtraction reinterpreted as a
signed `long`, truncating division by 86400, stored into a 16-bit `int`. -/
def elapsedBloomDays (timeInput timeNow : Nat) : Int :=
  toInt16 (cTruncDiv86400 (toInt32 (u32sub timeNow timeInput)))

/-- `setBloomStart` of src/PlantTimer.ino:521-554: the persisted
`storedSettings.bloomStart` after processing serial input `timeInput` at time
`timeNow`, starting from persisted value `stored`. -/
def setBloomStart (timeInput timeNow stored : Nat) : Nat :=
  if MIN_TIME ≤ timeInput then
    if elapsedBloomDays timeInput timeNow < MAX_BLOOM_DAYS then timeInput else 0
  else if timeInput = 0 then 0
  else stored

/-- The small bloom configuration used to exhibit the non-positive
far-red timer: 10 minutes ON, 10 minutes OFF. -/
def smallBloomConfig : BloomConfig := ⟨10, 10, 3, 0, 10⟩

/-- A bloom configuration whose drift is active from day 0 with a day-length
reduction (3 min) larger than the whole ON period (1 min). -/
def driftBloomConfig : BloomConfig := ⟨1, 1, 3, 0, 0⟩

/-! ## Helper lemmas about the loops -/

theorem u32_lt (n : Nat) : u32 n < 4294967296 := Nat.mod_lt _ (by norm_num)

theorem u32_eq_of_lt {n : Nat} (h : n < 4294967296) : u32 n = n := Nat.mod_eq_of_lt h

theorem u32sub_eq {a b : Nat} (hba : b ≤ a) (ha : a < 4294967296) : u32sub a b = a - b := by
  have hb : b < 4294967296 := lt_of_le_of_lt hba ha
  unfold u32sub u32
  rw [Nat.mod_eq_of_lt hb]
  have h1 : a + (4294967296 - b) = 4294967296 + (a - b) := by omega
  rw [h1, Nat.add_mod_left]
  exact Nat.mod_eq_of_lt (by omega)

/-- Unfolding equation for one pass of the growth-light while loop. -/
theorem growthLoop_succ (scheme : List Nat) (timeNow fuel sum count : Nat) :
    growthLoop scheme timeNow (fuel + 1) sum count =
      if sum ≤ timeNow then
        match scheme.get? count with
        | none => some (GrowthOutcome.oobRead count)
        | some entry =>
          let sum1 := u32 (sum + entry * 60)
          if sum1 ≤ timeNow then
            growthLoop scheme timeNow fuel sum1
              (if count < scheme.length - 1 then count + 1 else 0)
          else
            growthLoop scheme timeNow fuel sum1 count
      else
        some (GrowthOutcome.done sum count) := rfl

/-- Unfolding equation for one pass of the bloom-light while loop. -/
theorem bloomLoop_succ (cfg : BloomConfig) (timeNow fuel sum : Nat) (status : Bool) (counter : Nat) :
    bloomLoop cfg timeNow (fuel + 1) sum status counter =
      if sum ≤ timeNow then
        bloomLoop cfg timeNow fuel (bloomIterate cfg timeNow sum status counter).1
          (bloomIterate cfg timeNow sum status counter).2.1
          (bloomIterate cfg timeNow sum status counter).2.2
      else
        some (sum, status, counter) := rfl

/-- A completed growth-light walk is independent of the fuel bound. -/
theorem growthLoop_mono (scheme : List Nat) (timeNow : Nat) :
    ∀ fuel fuel' sum count r, fuel ≤ fuel' →
      growthLoop scheme timeNow fuel sum count = some r →
      growthLoop scheme timeNow fuel' sum count = some r := by
  intro fuel
  induction fuel with
  | zero => intro fuel' sum count r _ h; simp [growthLoop] at h
  | succ f ih =>
    intro fuel' sum count r hle h
    cases fuel' with
    | zero => omega
    | succ g =>
      have hfg : f ≤ g := by omega
      rw [growthLoop_succ] at h ⊢
      by_cases hs : sum ≤ timeNow
      · simp only [if_pos hs] at h ⊢
        cases hget : scheme.get? count with
        | none => simp only [hget] at h ⊢; exact h
        | some entry =>
          simp only [hget] at h ⊢
          by_cases h2 : u32 (sum + entry * 60) ≤ timeNow
          · simp only [if_pos h2] at h ⊢; exact ih g _ _ _ hfg h
          · simp only [if_neg h2] at h ⊢; exact ih g _ _ _ hfg h
      · simp only [if_neg hs] at h ⊢; exact h

/-- A completed bloom-light walk is independent of the fuel bound. -/
theorem bloomLoop_mono (cfg : BloomConfig) (timeNow : Nat) :
    ∀ fuel fuel' sum status counter r, fuel ≤ fuel' →
      bloomLoop cfg timeNow fuel sum status counter = some r →
      bloomLoop cfg timeNow fuel' sum status counter = some r := by
  intro fuel
  induction fuel with
  | zero => intro fuel' sum status counter r _ h; simp [bloomLoop] at h
  | succ f ih =>
    intro fuel' sum status counter r hle h
    cases fuel' with
    | zero => omega
    | succ g =>
      have hfg : f ≤ g := by omega
      rw [bloomLoop_succ] at h ⊢
      by_cases hs : sum ≤ timeNow
      · simp only [if_pos hs] at h ⊢; exact ih g _ _ _ _ hfg h
      · simp only [if_neg hs] at h ⊢; exact h

/-- When the growth-light walk exits normally, the accumulator has passed the
query time. -/
theorem growthLoop_done_gt (scheme : List Nat) (timeNow : Nat) :
    ∀ fuel sum count s c,
      growthLoop scheme timeNow fuel sum count = some (GrowthOutcome.done s c) →
      timeNow < s := by
  intro fuel
  induction fuel with
  | zero => intro sum count s c h; simp [growthLoop] at h
  | succ f ih =>
    intro sum count s c h
    rw [growthLoop_succ] at h
    by_cases hs : sum ≤ timeNow
    · simp only [if_pos hs] at h
      cases hget : scheme.get? count with
      | none => simp only [hget] at h; simp at h
      | some entry =>
        simp only [hget] at h
        by_cases h2 : u32 (sum + entry * 60) ≤ timeNow
        · simp only [if_pos h2] at h; exact ih _ _ _ _ h
        · simp only [if_neg h2] at h; exact ih _ _ _ _ h
    · simp only [if_neg hs] at h
      simp only [Option.some.injEq, GrowthOutcome.done.injEq] at h
      omega

/-- When the bloom-light walk exits, the accumulator has passed the query time. -/
theorem bloomLoop_gt (cfg : BloomConfig) (timeNow : Nat) :
    ∀ fuel sum status counter s st c,
      bloomLoop cfg timeNow fuel sum status counter = some (s, st, c) →
      timeNow < s := by
  intro fuel
  induction fuel with
  | zero => intro sum status counter s st c h; simp [bloomLoop] at h
  | succ f ih =>
    intro sum status counter s st c h
    rw [bloomLoop_succ] at h
    by_cases hs : sum ≤ timeNow
    · simp only [if_pos hs] at h; exact ih _ _ _ _ _ _ h
    · simp only [if_neg hs] at h
      simp only [Option.some.injEq, Prod.mk.injEq] at h
      omega

/-- Positivity of the growth scheduler's seconds-to-next-transition. -/
theorem getGrowthLightPeriod_pos (scheme : List Nat) (sh sm timeNow fuel stn p : Nat)
    (h : getGrowthLightPeriod scheme sh sm timeNow fuel = some (GrowthOutcome.done stn p)) :
    0 < stn := by
  unfold getGrowthLightPeriod at h
  cases hr : growthLoop scheme timeNow fuel (growthAnchor sh sm timeNow) 0 with
  | none => rw [hr] at h; simp at h
  | some r =>
    rw [hr] at h
    cases r with
    | done s c =>
      have h' : some (GrowthOutcome.done (s - timeNow) c) = some (GrowthOutcome.done stn p) := h
      simp only [Option.some.injEq, GrowthOutcome.done.injEq] at h'
      have hgt := growthLoop_done_gt scheme timeNow fuel _ 0 s c hr
      omega
    | oobRead i =>
      have h' : some (GrowthOutcome.oobRead i) = some (GrowthOutcome.done stn p) := h
      simp at h'

/-- Positivity of the bloom scheduler's seconds-to-next-transition. -/
theorem getBloomLightStatus_pos (cfg : BloomConfig) (bloomStart timeNow fuel : Nat)
    (status : Bool) (counter : Nat) (stn : Nat) (st : Bool) (c : Nat)
    (h : getBloomLightStatus cfg bloomStart timeNow fuel status counter = some (stn, st, c)) :
    0 < stn := by
  unfold getBloomLightStatus at h
  cases hr : bloomLoop cfg timeNow fuel (u32 bloomStart) status counter with
  | none => rw [hr] at h; simp at h
  | some r =>
    obtain ⟨s, st1, c1⟩ := r
    rw [hr] at h
    have h' : some (s - timeNow, st1, c1) = some (stn, st, c) := h
    simp only [Option.some.injEq, Prod.mk.injEq] at h'
    have hgt := bloomLoop_gt cfg timeNow fuel _ status counter s st1 c1 hr
    omega

/-- A positive unsigned value below 2^31 is stored as a positive `long`. -/
theorem toInt32_pos {n : Nat} (h0 : 0 < n) (h31 : n < 2147483648) : 0 < toInt32 n := by
  unfold toInt32
  rw [u32_eq_of_lt (by omega), if_pos h31]
  exact_mod_cast h0

/-! ## Lemmas about a single bloom-loop iteration -/

theorem bloomIterate_counter_change (cfg : BloomConfig) (timeNow sum : Nat) (status : Bool)
    (counter : Nat) (hne : (bloomIterate cfg timeNow sum status counter).2.2 ≠ counter) :
    status = true ∧ u32 (sum + bloomSchemeAt cfg status * 60) ≤ timeNow ∧
      (bloomIterate cfg timeNow sum status counter).2.1 = false ∧
      (bloomIterate cfg timeNow sum status counter).2.2 = (counter + 1) % 256 := by
  by_cases h1 : u32 (sum + bloomSchemeAt cfg status * 60) ≤ timeNow
  · cases status with
    | false => exfalso; apply hne; simp [bloomIterate, h1]
    | true => refine ⟨rfl, h1, ?_, ?_⟩ <;> simp [bloomIterate, h1]
  · exfalso; apply hne; simp [bloomIterate, h1]

theorem bloomIterate_lt_u32 (cfg : BloomConfig) (timeNow sum : Nat) (status : Bool) (counter : Nat) :
    (bloomIterate cfg timeNow sum status counter).1 < 4294967296 := by
  simp only [bloomIterate]
  split_ifs <;> exact u32_lt _

theorem bloomLoop_max_none (cfg : BloomConfig) :
    ∀ fuel sum (status : Bool) (counter : Nat), sum < 4294967296 →
      bloomLoop cfg 4294967295 fuel sum status counter = none := by
  intro fuel
  induction fuel with
  | zero => intro sum st c hlt; rfl
  | succ f ih =>
    intro sum st c hlt
    rw [bloomLoop_succ, if_pos (by omega)]
    exact ih _ _ _ (bloomIterate_lt_u32 cfg 4294967295 sum st c)

theorem bloomIterate_false (cfg : BloomConfig) (t sum counter : Nat) :
    bloomIterate cfg t sum false counter =
      if u32 (sum + cfg.onMinutes * 60) ≤ t then
        (if cfg.startOfDaytimeReduction ≤ counter then
            u32sub (u32 (sum + cfg.onMinutes * 60)) (cfg.reductionOfDaytimeInMinutes * 60)
          else u32 (sum + cfg.onMinutes * 60), true, counter)
      else (u32 (sum + cfg.onMinutes * 60), false, counter) := by
  simp [bloomIterate, bloomSchemeAt]

theorem bloomIterate_true (cfg : BloomConfig) (t sum counter : Nat) :
    bloomIterate cfg t sum true counter =
      if u32 (sum + cfg.offMinutes * 60) ≤ t then
        (if cfg.startOfDaytimeReduction ≤ counter then
            u32 (u32 (sum + cfg.offMinutes * 60) + cfg.prolongNighttimeInMinutes * 60)
          else u32 (sum + cfg.offMinutes * 60), false, (counter + 1) % 256)
      else (u32 (sum + cfg.offMinutes * 60), true, counter) := by
  simp [bloomIterate, bloomSchemeAt]

theorem bloomIterate_progress (cfg : BloomConfig) (timeNow : Nat)
    (hon : 0 < cfg.onMinutes) (hoff : 0 < cfg.offMinutes)
    (hred : cfg.reductionOfDaytimeInMinutes < cfg.onMinutes)
    (hb : timeNow + cfg.onMinutes * 60 + cfg.offMinutes * 60 +
        cfg.prolongNighttimeInMinutes * 60 < 4294967296)
    (sum : Nat) (status : Bool) (counter : Nat) (hsum : sum ≤ timeNow) :
    sum + 60 ≤ (bloomIterate cfg timeNow sum status counter).1 := by
  have hon60 : 60 ≤ cfg.onMinutes * 60 := by
    have := Nat.mul_le_mul_right 60 hon; omega
  have hoff60 : 60 ≤ cfg.offMinutes * 60 := by
    have := Nat.mul_le_mul_right 60 hoff; omega
  have hred60 : cfg.reductionOfDaytimeInMinutes * 60 + 60 ≤ cfg.onMinutes * 60 := by
    have : (cfg.reductionOfDaytimeInMinutes + 1) * 60 ≤ cfg.onMinutes * 60 :=
      Nat.mul_le_mul_right 60 hred
    omega
  cases status with
  | false =>
    rw [bloomIterate_false]
    have hs1 : u32 (sum + cfg.onMinutes * 60) = sum + cfg.onMinutes * 60 :=
      u32_eq_of_lt (by omega)
    rw [hs1]
    split_ifs with h1 h2
    · dsimp only
      rw [u32sub_eq (by omega) (by omega)]
      omega
    · dsimp only; omega
    · dsimp only; omega
  | true =>
    rw [bloomIterate_true]
    have hs1 : u32 (sum + cfg.offMinutes * 60) = sum + cfg.offMinutes * 60 :=
      u32_eq_of_lt (by omega)
    rw [hs1]
    split_ifs with h1 h2
    · dsimp only
      rw [u32_eq_of_lt (by omega)]
      omega
    · dsimp only; omega
    · dsimp only; omega

theorem bloomLoop_total (cfg : BloomConfig) (timeNow : Nat)
    (hon : 0 < cfg.onMinutes) (hoff : 0 < cfg.offMinutes)
    (hred : cfg.reductionOfDaytimeInMinutes < cfg.onMinutes)
    (hb : timeNow + cfg.onMinutes * 60 + cfg.offMinutes * 60 +
        cfg.prolongNighttimeInMinutes * 60 < 4294967296) :
    ∀ fuel sum (status : Bool) (counter : Nat), timeNow < fuel + sum →
      ∃ r, bloomLoop cfg timeNow (fuel + 1) sum status counter = some r := by
  intro fuel
  induction fuel with
  | zero =>
    intro sum st c hgt
    rw [bloomLoop_succ, if_neg (by omega)]
    exact ⟨_, rfl⟩
  | succ f ih =>
    intro sum st c hgt
    rw [bloomLoop_succ]
    by_cases hs : sum ≤ timeNow
    · rw [if_pos hs]
      have hprog := bloomIterate_progress cfg timeNow hon hoff hred hb sum st c hs
      exact ih _ _ _ (by omega)
    · rw [if_neg hs]; exact ⟨_, rfl⟩

theorem bloomLoop_cycles (cfg : BloomConfig) (start N : Nat)
    (hon : 0 < cfg.onMinutes) (hoff : 0 < cfg.offMinutes)
    (hN : N ≤ cfg.startOfDaytimeReduction) (hsd : cfg.startOfDaytimeReduction ≤ 255)
    (hb : start + N * ((cfg.onMinutes + cfg.offMinutes) * 60) + cfg.onMinutes * 60 < 4294967296) :
    ∀ d k, k + d = N →
      bloomLoop cfg (start + N * ((cfg.onMinutes + cfg.offMinutes) * 60)) (2 * d + 2)
          (start + k * ((cfg.onMinutes + cfg.offMinutes) * 60)) false k =
        some (start + N * ((cfg.onMinutes + cfg.offMinutes) * 60) + cfg.onMinutes * 60,
          false, N) := by
  have hD : cfg.onMinutes * 60 + cfg.offMinutes * 60 = (cfg.onMinutes + cfg.offMinutes) * 60 :=
    (Nat.add_mul _ _ _).symm
  have hon60 : 60 ≤ cfg.onMinutes * 60 := by have := Nat.mul_le_mul_right 60 hon; omega
  have hoff60 : 60 ≤ cfg.offMinutes * 60 := by have := Nat.mul_le_mul_right 60 hoff; omega
  intro d
  induction d with
  | zero =>
    intro k hk
    have hkN : k = N := by omega
    subst hkN
    rw [show 2 * 0 + 2 = 1 + 1 from rfl, bloomLoop_succ, if_pos (le_refl _), bloomIterate_false]
    have hs1 : u32 (start + k * ((cfg.onMinutes + cfg.offMinutes) * 60) + cfg.onMinutes * 60) =
        start + k * ((cfg.onMinutes + cfg.offMinutes) * 60) + cfg.onMinutes * 60 :=
      u32_eq_of_lt (by omega)
    rw [hs1, if_neg (by omega)]
    dsimp only
    rw [show (1 : Nat) = 0 + 1 from rfl, bloomLoop_succ, if_neg (by omega)]
  | succ d ih =>
    intro k hk
    have hkN : k + 1 ≤ N := by omega
    have hkD : k * ((cfg.onMinutes + cfg.offMinutes) * 60) +
        (cfg.onMinutes + cfg.offMinutes) * 60 ≤
        N * ((cfg.onMinutes + cfg.offMinutes) * 60) := by
      have h1 : (k + 1) * ((cfg.onMinutes + cfg.offMinutes) * 60) ≤
          N * ((cfg.onMinutes + cfg.offMinutes) * 60) := Nat.mul_le_mul_right _ hkN
      rw [Nat.succ_mul] at h1
      exact h1
    rw [show 2 * (d + 1) + 2 = (2 * d + 3) + 1 from by ring, bloomLoop_succ,
      if_pos (by omega), bloomIterate_false]
    have hs1 : u32 (start + k * ((cfg.onMinutes + cfg.offMinutes) * 60) + cfg.onMinutes * 60) =
        start + k * ((cfg.onMinutes + cfg.offMinutes) * 60) + cfg.onMinutes * 60 :=
      u32_eq_of_lt (by omega)
    rw [hs1, if_pos (by omega), if_neg (by omega)]
    dsimp only
    rw [show 2 * d + 3 = (2 * d + 2) + 1 from by ring, bloomLoop_succ, if_pos (by omega),
      bloomIterate_true]
    have hs2 : u32 (start + k * ((cfg.onMinutes + cfg.offMinutes) * 60) + cfg.onMinutes * 60 +
        cfg.offMinutes * 60) =
        start + k * ((cfg.onMinutes + cfg.offMinutes) * 60) + cfg.onMinutes * 60 +
          cfg.offMinutes * 60 :=
      u32_eq_of_lt (by omega)
    rw [hs2, if_pos (by omega), if_neg (by omega)]
    dsimp only
    rw [show (k + 1) % 256 = k + 1 from Nat.mod_eq_of_lt (by omega)]
    rw [show start + k * ((cfg.onMinutes + cfg.offMinutes) * 60) + cfg.onMinutes * 60 +
        cfg.offMinutes * 60 =
        start + (k + 1) * ((cfg.onMinutes + cfg.offMinutes) * 60) from by
      rw [Nat.succ_mul]; omega]
    exact ih (k + 1) (by omega)

/-- Invariant of the main-variant growth loop: starting from an in-range
index, the walk never reads out of bounds and exits with an in-range index. -/
theorem growthLoop_inbounds (scheme : List Nat) (timeNow : Nat) :
    ∀ fuel sum count r, count < scheme.length →
      growthLoop scheme timeNow fuel sum count = some r →
      (∀ i, r ≠ GrowthOutcome.oobRead i) ∧
        ∀ s c, r = GrowthOutcome.done s c → c < scheme.length := by
  intro fuel
  induction fuel with
  | zero => intro sum count r hc h; simp [growthLoop] at h
  | succ f ih =>
    intro sum count r hc h
    rw [growthLoop_succ] at h
    by_cases hs : sum ≤ timeNow
    · simp only [if_pos hs] at h
      cases hget : scheme.get? count with
      | none => exact absurd (List.get?_eq_none.mp hget) (by omega)
      | some entry =>
        simp only [hget] at h
        by_cases h2 : u32 (sum + entry * 60) ≤ timeNow
        · simp only [if_pos h2] at h
          by_cases h3 : count < scheme.length - 1
          · simp only [if_pos h3] at h; exact ih _ _ _ (by omega) h
          · simp only [if_neg h3] at h; exact ih _ _ _ (by omega) h
        · simp only [if_neg h2] at h; exact ih _ _ _ hc h
    · simp only [if_neg hs] at h
      injection h with h'
      subst h'
      refine ⟨fun i hi => GrowthOutcome.noConfusion hi, ?_⟩
      intro s c he
      injection he with h1 h2
      omega

/-! ## Claim theorems -/

/-- C1 (code bug): at boot with a stored `bloomStart = 1451606400` and clock
`timeNow = 1462060800` — an elapsed-day count of 121, at or above
`MAX_BLOOM_DAYS = 120` — `setup` nevertheless activates the bloom scheduler
(its only test is `bloomStart > 0 && timeNow - bloomStart > 0`) and leaves the
persisted `bloomStart` untouched, contradicting the claim that the scheduler
is not activated and the stored value is cleared to 0.  Only the serial
`setBloomStart` path (last conjunct) performs the normalization. -/
theorem c1_boot_stale_bloom :
    MAX_BLOOM_DAYS ≤ elapsedBloomDays 1451606400 1462060800 ∧
    setupActivatesBloom 1451606400 1462060800 = true ∧
    setupBloomStartAfter 1451606400 1462060800 = 1451606400 ∧
    setBloomStart 1451606400 1462060800 1451606400 = 0 := by decide

/-- C2 (code bug): with the bloom light ON (`bloomLightStatus = false`) and the
next transition — an OFF edge — 18000 s away, `getSleepLightStatus` returns
`true` (far-red ON) because its comparisons are inverted, while the
specified policy (`sleepLightSpecOn`, pre = 10 min, post = 15 min, time since
the last switch 28800 s) requires far-red OFF here. -/
theorem c2_sleep_code_vs_policy :
    getBloomLightStatus mainBloomConfig 1451606400 1451635200 8 false 0 =
      some (18000, false, 0) ∧
    getSleepLightStatus 10 15 mainBloomConfig false 18000 = (true, 18900) ∧
    sleepLightSpecOn 10 15 true 18000 28800 = false := by decide

/-- C3 (amended): recomputing the growth-light phase a second time at the same
query time with unchanged configuration yields exactly the same
`(currentGrowthLightPeriod, secondsToNextGrowthLightSwitch)` state — the
source loop reads none of the state it writes. -/
theorem c3_growth_idempotent (scheme : List Nat) (sh sm timeNow fuel : Nat) (s : GrowthState) :
    growthUpdate scheme sh sm timeNow fuel (growthUpdate scheme sh sm timeNow fuel s) =
      growthUpdate scheme sh sm timeNow fuel s := by
  cases h : getGrowthLightPeriod scheme sh sm timeNow fuel with
  | none => simp [growthUpdate, h]
  | some r =>
    cases r with
    | done stn p => simp [growthUpdate, h]
    | oobRead i => simp [growthUpdate, h]

/-- C3 (counterexample): the bloom-light computation is not idempotent.  At
`t = bloomStart + 50000` with the main configuration, a first call from the
fresh boot state `(bloomOn-period, counter 0)` leaves
`(bloomLightStatus = true, counter 0, 38200 s)`; a second call at the same `t`
restarts the walk from `bloomStart` with the mutated status and returns
`(bloomLightStatus = false, counter 1, 38200 s)` — a different `bloomOn` and a
larger `bloomDayCounter`. -/
theorem c3_bloom_not_idempotent :
    bloomUpdate mainBloomConfig 1451606400 1451656400 8
        (bloomUpdate mainBloomConfig 1451606400 1451656400 8 ⟨false, 0, 0⟩) ≠
      bloomUpdate mainBloomConfig 1451606400 1451656400 8 ⟨false, 0, 0⟩ := by decide

/-- C4 (amended): whenever the growth-light or bloom-light computation
completes, the unsigned seconds-to-next-transition it computes is strictly
positive, and the value actually stored in the signed 32-bit `long` global —
its `toInt32` reinterpretation — is strictly positive whenever the difference
does not overflow the signed range.  (The overflow proviso is necessary: see
the counterexample's growth instance.  The far-red computation violates the
claim outright: see the counterexample's far-red instance.) -/
theorem c4_positive_transition :
    (∀ (scheme : List Nat) (sh sm timeNow fuel stn p : Nat),
        getGrowthLightPeriod scheme sh sm timeNow fuel = some (GrowthOutcome.done stn p) →
        0 < stn ∧ (stn < 2147483648 → 0 < toInt32 stn)) ∧
    ∀ (cfg : BloomConfig) (bloomStart timeNow fuel : Nat) (status : Bool) (counter stn : Nat)
      (st : Bool) (c : Nat),
      getBloomLightStatus cfg bloomStart timeNow fuel status counter = some (stn, st, c) →
      0 < stn ∧ (stn < 2147483648 → 0 < toInt32 stn) := by
  constructor
  · intro scheme sh sm timeNow fuel stn p h
    have h0 := getGrowthLightPeriod_pos scheme sh sm timeNow fuel stn p h
    exact ⟨h0, fun h31 => toInt32_pos h0 h31⟩
  · intro cfg bloomStart timeNow fuel status counter stn st c h
    have h0 := getBloomLightStatus_pos cfg bloomStart timeNow fuel status counter stn st c h
    exact ⟨h0, fun h31 => toInt32_pos h0 h31⟩

/-- Witness for C4: the growth computation at 16:20:00 Jan 1 2016 and the
bloom computation 8 h into the ON period both complete, with positive
computed and stored `secondsToNextTransition`. -/
theorem c4_positive_transition_witness :
    (getGrowthLightPeriod growthLightScheme 16 20 1451665200 8 =
        some (GrowthOutcome.done 43200 0) ∧
      0 < 43200 ∧ ((43200 : Nat) < 2147483648 → 0 < toInt32 43200)) ∧
    getBloomLightStatus mainBloomConfig 1451606400 1451635200 8 false 0 =
        some (18000, false, 0) ∧
      0 < 18000 ∧ ((18000 : Nat) < 2147483648 → 0 < toInt32 18000) :=
  ⟨⟨by decide, c4_positive_transition.1 growthLightScheme 16 20 1451665200 8 43200 0 (by decide)⟩,
   by decide,
   c4_positive_transition.2 mainBloomConfig 1451606400 1451635200 8 false 0 18000 false 0
     (by decide)⟩

/-- C4 (counterexample): two instances where a scheduler computation stores a
non-positive `secondsToNextTransition`.  Far-red: with strictly positive
bloom periods of 10 minutes each, querying exactly at the bloom start leaves
600 s to the OFF edge; `getSleepLightStatus` takes its OFF branch
(`600 < 600` and `900 < 0` both fail, unsigned) and stores
`600 - 10 * 60 = 0`, which is not strictly positive.  Growth: at
`timeNow = 59000` (inside the first epoch day) the anchor wraps, the loop
exits immediately, and the unsigned difference 4294880696 is stored into the
signed `long` as `-86600 < 0`. -/
theorem c4_nonpositive_counterexample :
    (getBloomLightStatus smallBloomConfig 1451606400 1451606400 4 false 0 =
        some (600, false, 0) ∧
      getSleepLightStatus 10 15 smallBloomConfig false 600 = (false, 0) ∧
      ¬ (0 < (0 : Int))) ∧
    (getGrowthLightPeriod growthLightScheme 16 20 59000 4 =
        some (GrowthOutcome.done 4294880696 0) ∧
      toInt32 4294880696 = -86600 ∧ ¬ (0 < (-86600 : Int))) := by decide

/-- C5 (confirmed): with `growthPeriods = [720, 330, 60, 330]` and daily start
16:20, at `t = 1451665200` (Jan 1 2016 16:20:00 UTC) the computation returns
phase 0 with 43200 s to the next switch; at `t = 1451708340` (04:19:00 the
next morning) still phase 0; at `t = 1451708400` (04:20:00 exactly) phase 1
with 19800 s. -/
theorem c5_growth_scenario :
    getGrowthLightPeriod growthLightScheme 16 20 1451665200 8 =
      some (GrowthOutcome.done 43200 0) ∧
    getGrowthLightPeriod growthLightScheme 16 20 1451708340 4 =
      some (GrowthOutcome.done 60 0) ∧
    getGrowthLightPeriod growthLightScheme 16 20 1451708400 5 =
      some (GrowthOutcome.done 19800 1) := by decide

/-- C6 (confirmed): the bloom day counter changes in a loop iteration only at
an OFF→ON fold (the iteration starts in the OFF period and toggles to ON),
and a single computation from the fresh boot state `(false, 0)` at a time
exactly `N` full bloom cycles after `bloomStart` — with drift out of reach
(`N ≤ startOfDaytimeReduction`, a byte) and no 32-bit overflow — returns a
counter of exactly `N` (with the light back in its ON period). -/
theorem c6_bloom_day_counter :
    (∀ (cfg : BloomConfig) (timeNow sum : Nat) (status : Bool) (counter : Nat),
        (bloomIterate cfg timeNow sum status counter).2.2 ≠ counter →
        status = true ∧ (bloomIterate cfg timeNow sum status counter).2.1 = false) ∧
    ∀ (cfg : BloomConfig) (bloomStart N : Nat),
      0 < cfg.onMinutes → 0 < cfg.offMinutes →
      N ≤ cfg.startOfDaytimeReduction → cfg.startOfDaytimeReduction ≤ 255 →
      bloomStart + N * ((cfg.onMinutes + cfg.offMinutes) * 60) + cfg.onMinutes * 60 <
        4294967296 →
      getBloomLightStatus cfg bloomStart
          (bloomStart + N * ((cfg.onMinutes + cfg.offMinutes) * 60)) (2 * N + 2) false 0 =
        some (cfg.onMinutes * 60, false, N) := by
  constructor
  · intro cfg timeNow sum status counter hne
    have h := bloomIterate_counter_change cfg timeNow sum status counter hne
    exact ⟨h.1, h.2.2.1⟩
  · intro cfg bloomStart N hon hoff hN hsd hb
    have hcyc := bloomLoop_cycles cfg bloomStart N hon hoff hN hsd hb N 0 (by omega)
    have h0 : bloomStart + 0 * ((cfg.onMinutes + cfg.offMinutes) * 60) = bloomStart := by
      rw [Nat.zero_mul]; omega
    rw [h0] at hcyc
    unfold getBloomLightStatus
    rw [u32_eq_of_lt (by omega), hcyc]
    have hsub : bloomStart + N * ((cfg.onMinutes + cfg.offMinutes) * 60) + cfg.onMinutes * 60 -
        (bloomStart + N * ((cfg.onMinutes + cfg.offMinutes) * 60)) = cfg.onMinutes * 60 := by
      omega
    simp only [hsub]

/-- Witness for C6: an OFF→ON fold at concrete inputs changes the counter and
satisfies the fold characterization, and `N = 2` full cycles of the main
configuration from a fresh boot yield counter 2 exactly. -/
theorem c6_bloom_day_counter_witness :
    ((bloomIterate mainBloomConfig 100000 0 true 0).2.2 ≠ 0 ∧
      true = true ∧ (bloomIterate mainBloomConfig 100000 0 true 0).2.1 = false) ∧
    (0 < mainBloomConfig.onMinutes ∧ 0 < mainBloomConfig.offMinutes ∧
      2 ≤ mainBloomConfig.startOfDaytimeReduction ∧
      mainBloomConfig.startOfDaytimeReduction ≤ 255 ∧
      1451606400 + 2 * ((mainBloomConfig.onMinutes + mainBloomConfig.offMinutes) * 60) +
        mainBloomConfig.onMinutes * 60 < 4294967296) ∧
    getBloomLightStatus mainBloomConfig 1451606400
        (1451606400 + 2 * ((mainBloomConfig.onMinutes + mainBloomConfig.offMinutes) * 60))
        (2 * 2 + 2) false 0 =
      some (mainBloomConfig.onMinutes * 60, false, 2) :=
  ⟨⟨by decide, c6_bloom_day_counter.1 mainBloomConfig 100000 0 true 0 (by decide)⟩,
   ⟨by decide, by decide, by decide, by decide, by decide⟩,
   c6_bloom_day_counter.2 mainBloomConfig 1451606400 2 (by decide) (by decide) (by decide)
     (by decide) (by decide)⟩

/-- C7 (amended): the bloom walk terminates for every query time, start value
and prior state, provided both periods are strictly positive, the day-length
reduction is strictly smaller than the ON period (so every iteration makes
net forward progress even while drift applies), and no 32-bit wraparound can
occur below the query time. -/
theorem c7_termination (cfg : BloomConfig) (bloomStart timeNow : Nat) (status : Bool)
    (counter : Nat) (hon : 0 < cfg.onMinutes) (hoff : 0 < cfg.offMinutes)
    (hred : cfg.reductionOfDaytimeInMinutes < cfg.onMinutes)
    (hb : timeNow + cfg.onMinutes * 60 + cfg.offMinutes * 60 +
        cfg.prolongNighttimeInMinutes * 60 < 4294967296) :
    ∃ r, getBloomLightStatus cfg bloomStart timeNow (timeNow + 2) status counter = some r := by
  obtain ⟨r, hr⟩ := bloomLoop_total cfg timeNow hon hoff hred hb (timeNow + 1) (u32 bloomStart)
    status counter (by omega)
  obtain ⟨s, st, c⟩ := r
  refine ⟨(s - timeNow, st, c), ?_⟩
  unfold getBloomLightStatus
  have hr' : bloomLoop cfg timeNow (timeNow + 2) (u32 bloomStart) status counter =
      some (s, st, c) := hr
  rw [hr']

/-- Witness for C7: with the main configuration at `t = bloomStart + 28800`,
all hypotheses hold and the computation completes. -/
theorem c7_termination_witness :
    (0 < mainBloomConfig.onMinutes ∧ 0 < mainBloomConfig.offMinutes ∧
      mainBloomConfig.reductionOfDaytimeInMinutes < mainBloomConfig.onMinutes ∧
      1451635200 + mainBloomConfig.onMinutes * 60 + mainBloomConfig.offMinutes * 60 +
        mainBloomConfig.prolongNighttimeInMinutes * 60 < 4294967296) ∧
    ∃ r, getBloomLightStatus mainBloomConfig 1451606400 1451635200 (1451635200 + 2) false 0 =
      some r :=
  ⟨⟨by decide, by decide, by decide, by decide⟩,
   c7_termination mainBloomConfig 1451606400 1451635200 false 0 (by decide) (by decide)
     (by decide) (by decide)⟩

/-- C7 (counterexample): positivity of the two periods alone does not make the
loop terminate.  With `driftBloomConfig` (1 min ON, 1 min OFF, 3 min
reduction active from day 0 — net backward progress each cycle) and query
time `4294967295` (the largest `time_t`, at which `sum <= timeNow` holds for
every 32-bit accumulator value), the walk returns no result for any fuel. -/
theorem c7_nontermination :
    ¬ ∃ fuel r, getBloomLightStatus driftBloomConfig 1451606400 4294967295 fuel false 0 =
      some r := by
  rintro ⟨fuel, r, h⟩
  unfold getBloomLightStatus at h
  rw [bloomLoop_max_none driftBloomConfig fuel (u32 1451606400) false 0 (u32_lt _)] at h
  exact Option.noConfusion h

/-- C8 (confirmed): the `B` serial command (i) leaves the persisted value
unchanged for a non-zero timestamp below `MIN_TIME`, (ii) clears it for input
0, (iii) stores a timestamp whose elapsed-day count is exactly
`MAX_BLOOM_DAYS - 1` (bloom stays enabled: the stored value is non-zero), and
(iv) normalizes to 0 a timestamp whose elapsed-day count is at or above
`MAX_BLOOM_DAYS`. -/
theorem c8_setBloomStart_policy :
    (∀ timeInput timeNow stored, 0 < timeInput → timeInput < MIN_TIME →
        setBloomStart timeInput timeNow stored = stored) ∧
    (∀ timeNow stored, setBloomStart 0 timeNow stored = 0) ∧
    (∀ timeInput timeNow stored, MIN_TIME ≤ timeInput →
        elapsedBloomDays timeInput timeNow = MAX_BLOOM_DAYS - 1 →
        setBloomStart timeInput timeNow stored = timeInput ∧ 0 < timeInput) ∧
    ∀ timeInput timeNow stored, MIN_TIME ≤ timeInput →
      MAX_BLOOM_DAYS ≤ elapsedBloomDays timeInput timeNow →
      setBloomStart timeInput timeNow stored = 0 := by
  have hm : MIN_TIME = 1451606400 := rfl
  refine ⟨?_, ?_, ?_, ?_⟩
  · intro ti tn st h1 h2
    unfold setBloomStart
    rw [if_neg (by omega), if_neg (by omega)]
  · intro tn st
    unfold setBloomStart
    rw [if_neg (by omega), if_pos rfl]
  · intro ti tn st h1 h2
    unfold setBloomStart
    rw [if_pos h1, if_pos (by rw [h2]; decide)]
    exact ⟨rfl, by omega⟩
  · intro ti tn st h1 h2
    unfold setBloomStart
    rw [if_pos h1, if_neg (by omega)]

/-- Witness for C8: concrete instances of all four branches — input 100
(below `MIN_TIME`) leaves 777 stored; input 0 clears; elapsed-day count 119
(= `MAX_BLOOM_DAYS - 1`) stores the input; elapsed-day count 121 clears. -/
theorem c8_setBloomStart_policy_witness :
    setBloomStart 100 1451665200 777 = 777 ∧
    setBloomStart 0 1451665200 777 = 0 ∧
    (setBloomStart 1451606400 1461888100 777 = 1451606400 ∧ 0 < 1451606400) ∧
    setBloomStart 1451606400 1462060800 777 = 0 :=
  ⟨c8_setBloomStart_policy.1 100 1451665200 777 (by decide) (by decide),
   c8_setBloomStart_policy.2.1 1451665200 777,
   c8_setBloomStart_policy.2.2.1 1451606400 1461888100 777 (by decide) (by decide),
   c8_setBloomStart_policy.2.2.2 1451606400 1462060800 777 (by decide) (by decide)⟩

/-- C9 (code bug): a failed sensor read returns the sentinel
`DEVICE_DISCONNECTED_C = -127`, which the thermostat block treats as a real
cold reading: from the Normal state (`fanThrottleActive = false`) it
transitions to Throttled instead of holding its state.  (From Throttled the
sentinel keeps the state, so the dead band only masks one direction.) -/
theorem c9_fan_sentinel :
    fanThrottleStep 23 2 DEVICE_DISCONNECTED_C false = true ∧
    fanThrottleStep 23 2 DEVICE_DISCONNECTED_C true = true := by decide

/-- C10 (counterexample): the variant loop bound `count < GROWTH_LIGHT_PERIODS`
lets `count` reach `GROWTH_LIGHT_PERIODS = 4`, and at `t = 1451668800`
(17:20, one hour past the daily start, so the walk crosses a full day) the
variant `getGrowthLightPeriod` reads `growthLightScheme[4]` — out of bounds. -/
theorem c10_variant_oob_read :
    growthLightScheme.length = 4 ∧
    getGrowthLightPeriodVariant growthLightScheme 16 20 1451668800 8 =
      some (GrowthOutcome.oobRead 4) := by decide

/-- C10 (amended): the main file's `getGrowthLightPeriod` (loop bound
`count < GROWTH_LIGHT_PERIODS - 1`) reads `growthLightScheme` only at indices
within the array and returns a phase index below `GROWTH_LIGHT_PERIODS`, for
every query time, start time, scheme and fuel. -/
theorem c10_main_variant_inbounds (scheme : List Nat) (sh sm timeNow fuel : Nat)
    (r : GrowthOutcome) (hlen : 0 < scheme.length)
    (h : getGrowthLightPeriod scheme sh sm timeNow fuel = some r) :
    (∀ i, r ≠ GrowthOutcome.oobRead i) ∧
      ∀ stn p, r = GrowthOutcome.done stn p → p < scheme.length := by
  unfold getGrowthLightPeriod at h
  cases hr : growthLoop scheme timeNow fuel (growthAnchor sh sm timeNow) 0 with
  | none => rw [hr] at h; simp at h
  | some r0 =>
    rw [hr] at h
    have hin := growthLoop_inbounds scheme timeNow fuel _ 0 r0 hlen hr
    cases r0 with
    | done s c =>
      have h' : some (GrowthOutcome.done (s - timeNow) c) = some r := h
      injection h' with h''
      subst h''
      refine ⟨fun i hi => GrowthOutcome.noConfusion hi, ?_⟩
      intro stn p he
      injection he with h1 h2
      subst h2
      exact hin.2 s c rfl
    | oobRead i => exact absurd rfl (hin.1 i)

/-- Witness for C10 (amended): at 16:20:00 Jan 1 2016 the main variant
completes with phase index 0, which is within the 4-element scheme, and
reports no out-of-bounds read. -/
theorem c10_main_variant_inbounds_witness :
    (0 < growthLightScheme.length ∧
      getGrowthLightPeriod growthLightScheme 16 20 1451665200 8 =
        some (GrowthOutcome.done 43200 0)) ∧
    (∀ i, GrowthOutcome.done 43200 0 ≠ GrowthOutcome.oobRead i) ∧
      ∀ stn p, GrowthOutcome.done 43200 0 = GrowthOutcome.done stn p →
        p < growthLightScheme.length :=
  ⟨⟨by decide, by decide⟩,
   c10_main_variant_inbounds growthLightScheme 16 20 1451665200 8 _ (by decide) (by decide)⟩
